import Mathlib

/-!
Verification of `whatdis.binary_features` (repository `nickbuker/surveyor`).

The module under `src/whatdis/binary_features.py` provides data-quality checks
for binary-valued tabular columns.  We embed the pandas data shapes shallowly:

* a pandas `Series` is a `Column`: a dtype tag plus an ordered list of values
  (values are modelled as rationals, which embed booleans as 0/1 and integers
  exactly, and make the arithmetic mean exact);
* a pandas `DataFrame` is an ordered list of named columns;
* the `Union[pd.DataFrame, pd.Series]` argument type is the tagged union
  `TabularInput`;
* raising `TypeError` / `ValueError` is modelled with `Except CheckError`;
* pandas aggregations (`min`, `max`, `mean`) over a possibly-empty column
  return `Option ℚ` (`none` models the NaN produced on empty input, which
  compares false under every comparison, as NaN does).

The helpers `check_if_df`, `result_to_df` and `validate_thresh` live in
`whatdis/utils.py`, which is not part of the sources; they are modelled from
the spec and carry a `Modelled from the spec:` doc comment.
-/

/-- Element dtypes the spec's data model distinguishes: boolean, integer
(`np.dtype(int)`, i.e. `int64`), floating point, and string/object. -/
inductive Dtype
  | bool
  | int64
  | float64
  | object
deriving DecidableEq, Repr

/-- A pandas `Series`: a declared element dtype plus the ordered values. -/
structure Column where
  dtype : Dtype
  values : List ℚ
deriving DecidableEq, Repr

/-- The `Union[pd.DataFrame, pd.Series]` input: either a table of named
columns or a single column. -/
inductive TabularInput
  | df (cols : List (String × Column))
  | series (col : Column)
deriving DecidableEq, Repr

/-- The two error kinds of the module: `TypeError` and `ValueError`,
each carrying its message. -/
inductive CheckError
  | typeError (msg : String)
  | valueError (msg : String)
deriving DecidableEq, Repr

/-- A raw check result: a scalar outcome for a `Series` input, a per-column
mapping (column name to outcome) for a `DataFrame` input. -/
inductive RawResult
  | scalar (b : Bool)
  | perColumn (entries : List (String × Bool))
deriving DecidableEq, Repr

/-- An extra named statistic attached to a report (`thresh`, `mean`):
either a scalar number or a per-column series of numbers.  `none` models a
NaN statistic (mean of an empty column). -/
inductive Extra
  | num (q : Option ℚ)
  | perColumn (entries : List (String × Option ℚ))
deriving DecidableEq, Repr

/-- The uniform report shape: outcome field name (`title`), the raw result,
and the extra named statistic fields. -/
structure Report where
  title : String
  result : RawResult
  extras : List (String × Extra)
deriving DecidableEq, Repr

/-- Modelled from the spec: `check_if_df` (in `whatdis/utils.py`, not under
the sources) distinguishes table-shaped input from single-column input. -/
def check_if_df : TabularInput → Bool
  | .df _ => true
  | .series _ => false

/-- Modelled from the spec: `result_to_df` (in `whatdis/utils.py`, not under
the sources) normalizes a raw per-column or scalar result plus any extra
named fields into the uniform report shape, using `title` as the outcome
field's name. -/
def result_to_df (data : RawResult) (title : String)
    (extras : List (String × Extra)) : Report :=
  Report.mk title data extras

/-- Modelled from the spec: `validate_thresh` (in `whatdis/utils.py`, not
under the sources) fails with a `ValueError`-kind error if the threshold is
≤ 0.0 or ≥ 1.0. -/
def validate_thresh (thresh : ℚ) : Except CheckError Unit :=
  if thresh ≤ 0 ∨ 1 ≤ thresh then
    Except.error (CheckError.valueError
      "Thresh should be greater than 0.0 and less than 1.0.")
  else Except.ok ()

/-- `data.min()` on a column: `none` models the NaN returned on empty
input. -/
def seriesMin (l : List ℚ) : Option ℚ := l.min?

/-- `data.max()` on a column: `none` models the NaN returned on empty
input. -/
def seriesMax (l : List ℚ) : Option ℚ := l.max?

/-- `data.mean()` on a column: sum divided by row count; `none` models the
NaN returned on empty input. -/
def seriesMean (l : List ℚ) : Option ℚ :=
  if l.isEmpty then none else some (l.sum / l.length)

/-- Pandas equality comparison of two aggregates; a NaN operand (here
`none`) compares false. -/
def optEq : Option ℚ → Option ℚ → Bool
  | some a, some b => decide (a = b)
  | _, _ => false

/-- Pandas `≥` comparison of two aggregates; a NaN operand compares
false. -/
def optGe : Option ℚ → Option ℚ → Bool
  | some a, some b => decide (b ≤ a)
  | _, _ => false

/-- Pandas `≤` comparison of two aggregates; a NaN operand compares
false. -/
def optLe : Option ℚ → Option ℚ → Bool
  | some a, some b => decide (a ≤ b)
  | _, _ => false

/-- Pandas `<` comparison of two aggregates; a NaN operand compares
false. -/
def optLt : Option ℚ → Option ℚ → Bool
  | some a, some b => decide (a < b)
  | _, _ => false

/-- Pandas `>` comparison of two aggregates; a NaN operand compares
false. -/
def optGt : Option ℚ → Option ℚ → Bool
  | some a, some b => decide (b < a)
  | _, _ => false

/-- `validate_binary_dtype` (source lines 11-32): validates that all columns
(or the single column) have dtype `bool` or `int64`; raises `TypeError` with
the fixed message otherwise. -/
def validate_binary_dtype (data : TabularInput) : Except CheckError Unit :=
  let err_message := "Binary feature columns should be of type bool or int64."
  let types : List Dtype := [Dtype.bool, Dtype.int64]
  match data with
  | .df cols =>
      if cols.all (fun c => types.contains c.2.dtype) then Except.ok ()
      else Except.error (CheckError.typeError err_message)
  | .series c =>
      if types.contains c.dtype then Except.ok ()
      else Except.error (CheckError.typeError err_message)

/-- `check_all_same` (source lines 35-52): after dtype validation, the
outcome per column (or for the single column) is `min == max`. -/
def check_all_same (data : TabularInput) : Except CheckError Report := do
  validate_binary_dtype data
  let title := "all_same"
  match data with
  | .df cols =>
      pure (result_to_df
        (RawResult.perColumn (cols.map fun c =>
          (c.1, optEq (seriesMin c.2.values) (seriesMax c.2.values))))
        title [])
  | .series c =>
      pure (result_to_df
        (RawResult.scalar (optEq (seriesMin c.values) (seriesMax c.values)))
        title [])

/-- `check_mostly_same` (source lines 55-85): validates the threshold, then
the dtypes, then the outcome per column is `mean >= thresh or
mean <= 1 - thresh`; the report carries the `thresh` and per-column `mean`
extras. -/
def check_mostly_same (data : TabularInput) (thresh : ℚ) :
    Except CheckError Report := do
  validate_thresh thresh
  validate_binary_dtype data
  let title := "mostly_same"
  match data with
  | .df cols =>
      let mean := cols.map fun c => (c.1, seriesMean c.2.values)
      let result := mean.map fun m =>
        (m.1, optGe m.2 (some thresh) || optLe m.2 (some (1 - thresh)))
      pure (result_to_df (RawResult.perColumn result) title
        [("thresh", Extra.num (some thresh)), ("mean", Extra.perColumn mean)])
  | .series c =>
      let mean := seriesMean c.values
      let result := optGe mean (some thresh) || optLe mean (some (1 - thresh))
      pure (result_to_df (RawResult.scalar result) title
        [("thresh", Extra.num (some thresh)), ("mean", Extra.num mean)])

/-- `check_outside_range` (source lines 88-106): after dtype validation, the
outcome per column is `min < 0 or max > 1`. -/
def check_outside_range (data : TabularInput) : Except CheckError Report := do
  validate_binary_dtype data
  let title := "outside_range"
  match data with
  | .df cols =>
      pure (result_to_df
        (RawResult.perColumn (cols.map fun c =>
          (c.1, optLt (seriesMin c.2.values) (some 0) ||
            optGt (seriesMax c.2.values) (some 1))))
        title [])
  | .series c =>
      pure (result_to_df
        (RawResult.scalar (optLt (seriesMin c.values) (some 0) ||
          optGt (seriesMax c.values) (some 1)))
        title [])

/-- The lists of values of the columns of an input, in order. -/
def columnsOf : TabularInput → List (List ℚ)
  | .df cols => cols.map fun c => c.2.values
  | .series c => [c.values]

/-- The declared dtypes of the columns of an input, in order. -/
def dtypesOf : TabularInput → List Dtype
  | .df cols => cols.map fun c => c.2.dtype
  | .series c => [c.dtype]

/-- The boolean outcomes a report carries, in column order (a single-element
list for a scalar report). -/
def Report.outcomes (r : Report) : List Bool :=
  match r.result with
  | .scalar b => [b]
  | .perColumn entries => entries.map Prod.snd

/-- Whether an `Except` result is a `ValueError`. -/
def isValueError {α : Type} : Except CheckError α → Bool
  | .error (.valueError _) => true
  | _ => false

/-- The report's shape mirrors the input's shape: a scalar outcome for a
single-column input, a per-column mapping carrying exactly the input's
column names (in order) for a table input. -/
def mirrorsShape (data : TabularInput) (r : Report) : Prop :=
  match data, r.result with
  | .series _, .scalar _ => True
  | .df cols, .perColumn entries => entries.map Prod.fst = cols.map Prod.fst
  | _, _ => False

/-! ### Helper lemmas about the per-column aggregates -/

lemma rat_min?_eq_some_iff (l : List ℚ) (m : ℚ) :
    l.min? = some m ↔ m ∈ l ∧ ∀ x ∈ l, m ≤ x := by
  have anti : Std.Antisymm (α := ℚ) (fun a b => a ≤ b) :=
    ⟨fun h h' => le_antisymm h h'⟩
  exact List.min?_eq_some_iff (fun _ => le_refl _) (fun a b => min_choice a b)
    (fun _ _ _ => le_min_iff)

lemma rat_max?_eq_some_iff (l : List ℚ) (m : ℚ) :
    l.max? = some m ↔ m ∈ l ∧ ∀ x ∈ l, x ≤ m := by
  have anti : Std.Antisymm (α := ℚ) (fun a b => a ≤ b) :=
    ⟨fun h h' => le_antisymm h h'⟩
  exact List.max?_eq_some_iff (fun _ => le_refl _) (fun a b => max_choice a b)
    (fun _ _ _ => max_le_iff)

lemma exists_min?_of_ne_nil (l : List ℚ) (h : l ≠ []) :
    ∃ m, l.min? = some m ∧ m ∈ l ∧ ∀ x ∈ l, m ≤ x := by
  match l, h with
  | x :: xs, _ =>
    refine ⟨xs.foldl min x, rfl, ?_⟩
    exact (rat_min?_eq_some_iff (x :: xs) _).mp rfl

lemma exists_max?_of_ne_nil (l : List ℚ) (h : l ≠ []) :
    ∃ m, l.max? = some m ∧ m ∈ l ∧ ∀ x ∈ l, x ≤ m := by
  match l, h with
  | x :: xs, _ =>
    refine ⟨xs.foldl max x, rfl, ?_⟩
    exact (rat_max?_eq_some_iff (x :: xs) _).mp rfl

/-- Per-column content of the all-same check: for a nonempty column, the
computed outcome is true iff the minimum equals the maximum, iff the column
is constant. -/
lemma allSame_col (l : List ℚ) (h : l ≠ []) :
    (optEq (seriesMin l) (seriesMax l) = true ↔ l.min? = l.max?) ∧
    (optEq (seriesMin l) (seriesMax l) = true ↔ ∀ x ∈ l, ∀ y ∈ l, x = y) := by
  obtain ⟨m, hm, hmem, hle⟩ := exists_min?_of_ne_nil l h
  obtain ⟨M, hM, hMem, hge⟩ := exists_max?_of_ne_nil l h
  have h1 : optEq (seriesMin l) (seriesMax l) = true ↔ m = M := by
    simp [optEq, seriesMin, seriesMax, hm, hM]
  have h2 : m = M ↔ ∀ x ∈ l, ∀ y ∈ l, x = y := by
    constructor
    · intro hmM x hx y hy
      have hxm : x = m := le_antisymm (by rw [hmM]; exact hge x hx) (hle x hx)
      have hym : y = m := le_antisymm (by rw [hmM]; exact hge y hy) (hle y hy)
      rw [hxm, hym]
    · intro hconst
      exact hconst m hmem M hMem
  refine ⟨?_, h1.trans h2⟩
  rw [h1, hm, hM]
  constructor
  · intro hmM; rw [hmM]
  · intro hsome; exact Option.some.inj hsome

lemma validate_thresh_ok (t : ℚ) (h0 : 0 < t) (h1 : t < 1) :
    validate_thresh t = Except.ok () := by
  rw [validate_thresh, if_neg]
  push_neg
  exact ⟨h0, h1⟩

lemma seriesMean_ne_nil (l : List ℚ) (h : l ≠ []) :
    seriesMean l = some (l.sum / l.length) := by
  rw [seriesMean, if_neg]
  simp [List.isEmpty_iff, h]

/-- Per-column content of the mostly-same check: for a nonempty column, the
computed outcome is true iff the arithmetic mean is ≥ the threshold or
≤ one minus the threshold (both inclusive). -/
lemma mostlySame_col (l : List ℚ) (h : l ≠ []) (t : ℚ) :
    (optGe (seriesMean l) (some t) || optLe (seriesMean l) (some (1 - t)))
        = true ↔
      (t ≤ l.sum / l.length ∨ l.sum / l.length ≤ 1 - t) := by
  rw [seriesMean_ne_nil l h]
  simp [optGe, optLe]

/-- Per-column content of the outside-range check: for a nonempty column,
the computed outcome is true iff the minimum is < 0 or the maximum is
> 1. -/
lemma outsideRange_col (l : List ℚ) (h : l ≠ []) :
    (optLt (seriesMin l) (some 0) || optGt (seriesMax l) (some 1)) = true ↔
      ((∃ m, l.min? = some m ∧ m < 0) ∨ (∃ M, l.max? = some M ∧ 1 < M)) := by
  obtain ⟨m, hm, -, -⟩ := exists_min?_of_ne_nil l h
  obtain ⟨M, hM, -, -⟩ := exists_max?_of_ne_nil l h
  simp [optLt, optGt, seriesMin, seriesMax, hm, hM]

/-! ### Claim theorems -/

/-- C1: for every table or column of validated binary data (nonempty
columns), `check_all_same` succeeds and the outcome for each column is true
iff that column's minimum equals its maximum, exact equality with no numeric
tolerance — equivalently, iff the column is constant. -/
theorem check_all_same_min_eq_max (data : TabularInput)
    (hv : validate_binary_dtype data = Except.ok ())
    (hne : ∀ l ∈ columnsOf data, l ≠ []) :
    ∃ r, check_all_same data = Except.ok r ∧
      List.Forall₂ (fun (l : List ℚ) (b : Bool) =>
          (b = true ↔ l.min? = l.max?) ∧ (b = true ↔ ∀ x ∈ l, ∀ y ∈ l, x = y))
        (columnsOf data) r.outcomes := by
  cases data with
  | df cols =>
      refine ⟨result_to_df (RawResult.perColumn (cols.map fun c =>
          (c.1, optEq (seriesMin c.2.values) (seriesMax c.2.values))))
          "all_same" [], ?_, ?_⟩
      · simp [check_all_same, hv]
      · simp only [Report.outcomes, result_to_df, columnsOf, List.map_map]
        rw [List.forall₂_map_left_iff, List.forall₂_map_right_iff,
          List.forall₂_same]
        intro c hc
        refine allSame_col c.2.values (hne c.2.values ?_)
        simp only [columnsOf, List.mem_map]
        exact ⟨c, hc, rfl⟩
  | series c =>
      refine ⟨result_to_df
          (RawResult.scalar (optEq (seriesMin c.values) (seriesMax c.values)))
          "all_same" [], ?_, ?_⟩
      · simp [check_all_same, hv]
      · refine List.Forall₂.cons ?_ List.Forall₂.nil
        refine allSame_col c.values (hne c.values ?_)
        simp [columnsOf]

/-- C1 witness: the spec's example table `A=[1,1,1]`, `B=[1,0,1]`. -/
theorem check_all_same_min_eq_max_witness :
    ∃ r, check_all_same (TabularInput.df
        [("A", Column.mk Dtype.int64 [1, 1, 1]),
         ("B", Column.mk Dtype.int64 [1, 0, 1])]) = Except.ok r ∧
      List.Forall₂ (fun (l : List ℚ) (b : Bool) =>
          (b = true ↔ l.min? = l.max?) ∧ (b = true ↔ ∀ x ∈ l, ∀ y ∈ l, x = y))
        (columnsOf (TabularInput.df
          [("A", Column.mk Dtype.int64 [1, 1, 1]),
           ("B", Column.mk Dtype.int64 [1, 0, 1])])) r.outcomes :=
  check_all_same_min_eq_max _ (by rfl) (by decide)
/-- C2: for validated binary data (nonempty columns) and a threshold in
(0,1), `check_mostly_same` succeeds and each column's outcome is true iff
the column's arithmetic mean is ≥ the threshold or ≤ one minus the
threshold, both comparisons inclusive. -/
theorem check_mostly_same_mean_thresh (data : TabularInput) (t : ℚ)
    (hv : validate_binary_dtype data = Except.ok ())
    (ht0 : 0 < t) (ht1 : t < 1)
    (hne : ∀ l ∈ columnsOf data, l ≠ []) :
    ∃ r, check_mostly_same data t = Except.ok r ∧
      List.Forall₂ (fun (l : List ℚ) (b : Bool) =>
          b = true ↔ (t ≤ l.sum / l.length ∨ l.sum / l.length ≤ 1 - t))
        (columnsOf data) r.outcomes := by
  have hth := validate_thresh_ok t ht0 ht1
  cases data with
  | df cols =>
      refine ⟨result_to_df
          (RawResult.perColumn ((cols.map fun c =>
              (c.1, seriesMean c.2.values)).map fun m =>
            (m.1, optGe m.2 (some t) || optLe m.2 (some (1 - t)))))
          "mostly_same"
          [("thresh", Extra.num (some t)),
           ("mean", Extra.perColumn (cols.map fun c =>
             (c.1, seriesMean c.2.values)))], ?_, ?_⟩
      · simp only [check_mostly_same, hth, hv]
        rfl
      · simp only [Report.outcomes, result_to_df, columnsOf, List.map_map]
        rw [List.forall₂_map_left_iff, List.forall₂_map_right_iff,
          List.forall₂_same]
        intro c hc
        refine mostlySame_col c.2.values (hne c.2.values ?_) t
        simp only [columnsOf, List.mem_map]
        exact ⟨c, hc, rfl⟩
  | series c =>
      refine ⟨result_to_df
          (RawResult.scalar (optGe (seriesMean c.values) (some t) ||
            optLe (seriesMean c.values) (some (1 - t))))
          "mostly_same"
          [("thresh", Extra.num (some t)),
           ("mean", Extra.num (seriesMean c.values))], ?_, ?_⟩
      · simp only [check_mostly_same, hth, hv]
        rfl
      · refine List.Forall₂.cons ?_ List.Forall₂.nil
        refine mostlySame_col c.values (hne c.values ?_) t
        simp [columnsOf]

/-- C2 witness: a 100-row column that is exactly 95% ones, threshold
0.95. -/
theorem check_mostly_same_mean_thresh_witness :
    ∃ r, check_mostly_same (TabularInput.series
        (Column.mk Dtype.int64
          (List.replicate 95 (1 : ℚ) ++ List.replicate 5 0))) (95 / 100) =
        Except.ok r ∧
      List.Forall₂ (fun (l : List ℚ) (b : Bool) =>
          b = true ↔ ((95 / 100 : ℚ) ≤ l.sum / l.length ∨
            l.sum / l.length ≤ 1 - 95 / 100))
        (columnsOf (TabularInput.series
          (Column.mk Dtype.int64
            (List.replicate 95 (1 : ℚ) ++ List.replicate 5 0)))) r.outcomes :=
  check_mostly_same_mean_thresh _ _ (by rfl) (by norm_num) (by norm_num)
    (by decide)

/-- C3: for every table or column of validated binary data (nonempty
columns), `check_outside_range` succeeds and each column's outcome is true
iff that column's minimum is less than 0 or its maximum is greater
than 1. -/
theorem check_outside_range_min_max (data : TabularInput)
    (hv : validate_binary_dtype data = Except.ok ())
    (hne : ∀ l ∈ columnsOf data, l ≠ []) :
    ∃ r, check_outside_range data = Except.ok r ∧
      List.Forall₂ (fun (l : List ℚ) (b : Bool) =>
          b = true ↔ ((∃ m, l.min? = some m ∧ m < 0) ∨
            (∃ M, l.max? = some M ∧ 1 < M)))
        (columnsOf data) r.outcomes := by
  cases data with
  | df cols =>
      refine ⟨result_to_df (RawResult.perColumn (cols.map fun c =>
          (c.1, optLt (seriesMin c.2.values) (some 0) ||
            optGt (seriesMax c.2.values) (some 1))))
          "outside_range" [], ?_, ?_⟩
      · simp only [check_outside_range, hv]
        rfl
      · simp only [Report.outcomes, result_to_df, columnsOf, List.map_map]
        rw [List.forall₂_map_left_iff, List.forall₂_map_right_iff,
          List.forall₂_same]
        intro c hc
        refine outsideRange_col c.2.values (hne c.2.values ?_)
        simp only [columnsOf, List.mem_map]
        exact ⟨c, hc, rfl⟩
  | series c =>
      refine ⟨result_to_df
          (RawResult.scalar (optLt (seriesMin c.values) (some 0) ||
            optGt (seriesMax c.values) (some 1)))
          "outside_range" [], ?_, ?_⟩
      · simp only [check_outside_range, hv]
        rfl
      · refine List.Forall₂.cons ?_ List.Forall₂.nil
        refine outsideRange_col c.values (hne c.values ?_)
        simp [columnsOf]

/-- C3 witness: the spec's integer column `[0, 1, 2]`, which passes the
dtype gate and has maximum 2 > 1. -/
theorem check_outside_range_min_max_witness :
    ∃ r, check_outside_range (TabularInput.series
        (Column.mk Dtype.int64 [0, 1, 2])) = Except.ok r ∧
      List.Forall₂ (fun (l : List ℚ) (b : Bool) =>
          b = true ↔ ((∃ m, l.min? = some m ∧ m < 0) ∨
            (∃ M, l.max? = some M ∧ 1 < M)))
        (columnsOf (TabularInput.series
          (Column.mk Dtype.int64 [0, 1, 2]))) r.outcomes :=
  check_outside_range_min_max _ (by rfl) (by decide)

lemma dtype_allowed_iff (d : Dtype) :
    (([Dtype.bool, Dtype.int64] : List Dtype).contains d = true) ↔
      (d = Dtype.bool ∨ d = Dtype.int64) := by
  cases d <;> decide

lemma validate_df_cond (cols : List (String × Column)) :
    (cols.all fun c =>
        ([Dtype.bool, Dtype.int64] : List Dtype).contains c.2.dtype) = true ↔
      ∀ d ∈ (cols.map fun c => c.2.dtype), d = Dtype.bool ∨ d = Dtype.int64 := by
  rw [List.all_eq_true]
  constructor
  · intro h d hd
    obtain ⟨c, hc, rfl⟩ := List.mem_map.mp hd
    exact (dtype_allowed_iff _).mp (h c hc)
  · intro h c hc
    exact (dtype_allowed_iff _).mpr (h c.2.dtype (List.mem_map.mpr ⟨c, hc, rfl⟩))

lemma validate_binary_dtype_error_shape (data : TabularInput)
    (e : CheckError) (h : validate_binary_dtype data = Except.error e) :
    e = CheckError.typeError
      "Binary feature columns should be of type bool or int64." := by
  cases data <;> simp only [validate_binary_dtype] at h <;> split at h <;>
    simp_all

/-- C4: `validate_binary_dtype` returns normally iff every column's dtype is
bool or int64, and otherwise raises the `TypeError` with the fixed
message. -/
theorem validate_binary_dtype_iff (data : TabularInput) :
    (validate_binary_dtype data = Except.ok () ↔
      ∀ d ∈ dtypesOf data, d = Dtype.bool ∨ d = Dtype.int64) ∧
    (validate_binary_dtype data = Except.error (CheckError.typeError
        "Binary feature columns should be of type bool or int64.") ↔
      ¬ ∀ d ∈ dtypesOf data, d = Dtype.bool ∨ d = Dtype.int64) := by
  cases data with
  | df cols =>
      simp only [validate_binary_dtype, dtypesOf]
      constructor
      · split_ifs with hcond
        · exact iff_of_true rfl ((validate_df_cond cols).mp hcond)
        · refine iff_of_false (by simp) fun hall =>
            hcond ((validate_df_cond cols).mpr hall)
      · split_ifs with hcond
        · refine iff_of_false (by simp) fun hcon =>
            hcon ((validate_df_cond cols).mp hcond)
        · exact iff_of_true rfl fun hall =>
            hcond ((validate_df_cond cols).mpr hall)
  | series c =>
      simp only [validate_binary_dtype, dtypesOf]
      constructor
      · split_ifs with hcond
        · refine iff_of_true rfl ?_
          intro d hd
          rw [List.mem_singleton] at hd
          rw [hd]
          exact (dtype_allowed_iff _).mp hcond
        · refine iff_of_false (by simp) fun hall =>
            hcond ((dtype_allowed_iff _).mpr
              (hall c.dtype (List.mem_singleton.mpr rfl)))
      · split_ifs with hcond
        · refine iff_of_false (by simp) fun hcon => hcon ?_
          intro d hd
          rw [List.mem_singleton] at hd
          rw [hd]
          exact (dtype_allowed_iff _).mp hcond
        · exact iff_of_true rfl fun hall =>
            hcond ((dtype_allowed_iff _).mpr
              (hall c.dtype (List.mem_singleton.mpr rfl)))

lemma validate_thresh_error (t : ℚ) (h : t ≤ 0 ∨ 1 ≤ t) :
    validate_thresh t = Except.error (CheckError.valueError
      "Thresh should be greater than 0.0 and less than 1.0.") := by
  unfold validate_thresh
  rw [if_pos h]

lemma check_all_same_error (data : TabularInput) (e : CheckError)
    (hv : validate_binary_dtype data = Except.error e) :
    check_all_same data = Except.error e := by
  unfold check_all_same
  rw [hv]
  rfl

lemma check_outside_range_error (data : TabularInput) (e : CheckError)
    (hv : validate_binary_dtype data = Except.error e) :
    check_outside_range data = Except.error e := by
  unfold check_outside_range
  rw [hv]
  rfl

lemma check_mostly_same_thresh_error (data : TabularInput) (t : ℚ)
    (h : t ≤ 0 ∨ 1 ≤ t) :
    check_mostly_same data t = Except.error (CheckError.valueError
      "Thresh should be greater than 0.0 and less than 1.0.") := by
  unfold check_mostly_same
  rw [validate_thresh_error t h]
  rfl

lemma check_mostly_same_dtype_error (data : TabularInput) (t : ℚ)
    (e : CheckError) (hth : validate_thresh t = Except.ok ())
    (hv : validate_binary_dtype data = Except.error e) :
    check_mostly_same data t = Except.error e := by
  unfold check_mostly_same
  rw [hth, hv]
  rfl

/-- C5: `check_mostly_same` raises a `ValueError` iff the threshold is ≤ 0.0
or ≥ 1.0 — for every input, in particular also for inputs that would fail
dtype validation, so the threshold error is raised eagerly before any mean
is computed. -/
theorem check_mostly_same_value_error_iff (data : TabularInput) (t : ℚ) :
    isValueError (check_mostly_same data t) = true ↔ (t ≤ 0 ∨ 1 ≤ t) := by
  by_cases h : t ≤ 0 ∨ 1 ≤ t
  · rw [check_mostly_same_thresh_error data t h]
    exact iff_of_true rfl h
  · refine iff_of_false ?_ h
    have hth : validate_thresh t = Except.ok () := by
      unfold validate_thresh
      rw [if_neg h]
    cases hv : validate_binary_dtype data with
    | ok u =>
        cases u
        cases data with
        | df cols =>
            simp only [check_mostly_same, hth, hv]
            intro hcontra
            exact Bool.false_ne_true hcontra
        | series c =>
            simp only [check_mostly_same, hth, hv]
            intro hcontra
            exact Bool.false_ne_true hcontra
    | error e =>
        rw [check_mostly_same_dtype_error data t e hth hv,
          validate_binary_dtype_error_shape data e hv]
        intro hcontra
        exact Bool.false_ne_true hcontra

lemma check_all_same_df_eq (cols : List (String × Column))
    (hv : validate_binary_dtype (TabularInput.df cols) = Except.ok ()) :
    check_all_same (TabularInput.df cols) = Except.ok (result_to_df
      (RawResult.perColumn (cols.map fun c =>
        (c.1, optEq (seriesMin c.2.values) (seriesMax c.2.values))))
      "all_same" []) := by
  simp only [check_all_same, hv]
  rfl

lemma check_all_same_series_eq (c : Column)
    (hv : validate_binary_dtype (TabularInput.series c) = Except.ok ()) :
    check_all_same (TabularInput.series c) = Except.ok (result_to_df
      (RawResult.scalar (optEq (seriesMin c.values) (seriesMax c.values)))
      "all_same" []) := by
  simp only [check_all_same, hv]
  rfl

lemma check_mostly_same_df_eq (cols : List (String × Column)) (t : ℚ)
    (hth : validate_thresh t = Except.ok ())
    (hv : validate_binary_dtype (TabularInput.df cols) = Except.ok ()) :
    check_mostly_same (TabularInput.df cols) t = Except.ok (result_to_df
      (RawResult.perColumn ((cols.map fun c =>
          (c.1, seriesMean c.2.values)).map fun m =>
        (m.1, optGe m.2 (some t) || optLe m.2 (some (1 - t)))))
      "mostly_same"
      [("thresh", Extra.num (some t)),
       ("mean", Extra.perColumn (cols.map fun c =>
         (c.1, seriesMean c.2.values)))]) := by
  simp only [check_mostly_same, hth, hv]
  rfl

lemma check_mostly_same_series_eq (c : Column) (t : ℚ)
    (hth : validate_thresh t = Except.ok ())
    (hv : validate_binary_dtype (TabularInput.series c) = Except.ok ()) :
    check_mostly_same (TabularInput.series c) t = Except.ok (result_to_df
      (RawResult.scalar (optGe (seriesMean c.values) (some t) ||
        optLe (seriesMean c.values) (some (1 - t))))
      "mostly_same"
      [("thresh", Extra.num (some t)),
       ("mean", Extra.num (seriesMean c.values))]) := by
  simp only [check_mostly_same, hth, hv]
  rfl

lemma check_outside_range_df_eq (cols : List (String × Column))
    (hv : validate_binary_dtype (TabularInput.df cols) = Except.ok ()) :
    check_outside_range (TabularInput.df cols) = Except.ok (result_to_df
      (RawResult.perColumn (cols.map fun c =>
        (c.1, optLt (seriesMin c.2.values) (some 0) ||
          optGt (seriesMax c.2.values) (some 1))))
      "outside_range" []) := by
  simp only [check_outside_range, hv]
  rfl

lemma check_outside_range_series_eq (c : Column)
    (hv : validate_binary_dtype (TabularInput.series c) = Except.ok ()) :
    check_outside_range (TabularInput.series c) = Except.ok (result_to_df
      (RawResult.scalar (optLt (seriesMin c.values) (some 0) ||
        optGt (seriesMax c.values) (some 1)))
      "outside_range" []) := by
  simp only [check_outside_range, hv]
  rfl

/-- C6: each of the three checks invokes the dtype validator as a
precondition: on any input with an invalid column dtype, every check
propagates exactly the validator's `TypeError` (for `check_mostly_same`,
whenever the threshold itself is valid, since the threshold is checked
first) and produces no report. -/
theorem checks_validate_dtype_eagerly (data : TabularInput) (e : CheckError)
    (hv : validate_binary_dtype data = Except.error e) :
    check_all_same data = Except.error e ∧
    check_outside_range data = Except.error e ∧
    ∀ t : ℚ, 0 < t → t < 1 → check_mostly_same data t = Except.error e := by
  refine ⟨check_all_same_error data e hv,
    check_outside_range_error data e hv, ?_⟩
  intro t ht0 ht1
  exact check_mostly_same_dtype_error data t e (validate_thresh_ok t ht0 ht1) hv

/-- C6 witness: a float-typed column makes all three checks fail with the
`TypeError`. -/
theorem checks_validate_dtype_eagerly_witness :
    check_all_same (TabularInput.series (Column.mk Dtype.float64 [1 / 2])) =
      Except.error (CheckError.typeError
        "Binary feature columns should be of type bool or int64.") ∧
    check_outside_range
        (TabularInput.series (Column.mk Dtype.float64 [1 / 2])) =
      Except.error (CheckError.typeError
        "Binary feature columns should be of type bool or int64.") ∧
    ∀ t : ℚ, 0 < t → t < 1 →
      check_mostly_same
          (TabularInput.series (Column.mk Dtype.float64 [1 / 2])) t =
        Except.error (CheckError.typeError
          "Binary feature columns should be of type bool or int64.") :=
  checks_validate_dtype_eagerly _ _ (by rfl)

/-- C7: whenever a check succeeds, the report's shape mirrors the input's
shape: a scalar outcome for a single-column input, and a per-column mapping
carrying exactly the input's column names for a table input. -/
theorem check_result_mirrors_shape (data : TabularInput) (t : ℚ)
    (r₁ r₂ r₃ : Report)
    (h₁ : check_all_same data = Except.ok r₁)
    (h₂ : check_mostly_same data t = Except.ok r₂)
    (h₃ : check_outside_range data = Except.ok r₃) :
    mirrorsShape data r₁ ∧ mirrorsShape data r₂ ∧ mirrorsShape data r₃ := by
  cases hv : validate_binary_dtype data with
  | error e =>
      rw [check_all_same_error data e hv] at h₁
      cases h₁
  | ok u =>
      cases u
      cases hth : validate_thresh t with
      | error e' =>
          rw [check_mostly_same] at h₂
          rw [hth] at h₂
          cases h₂
      | ok u' =>
          cases u'
          cases data with
          | df cols =>
              rw [check_all_same_df_eq cols hv] at h₁
              rw [check_mostly_same_df_eq cols t hth hv] at h₂
              rw [check_outside_range_df_eq cols hv] at h₃
              cases h₁
              cases h₂
              cases h₃
              refine ⟨?_, ?_, ?_⟩ <;>
                simp [mirrorsShape, result_to_df, List.map_map]
          | series c =>
              rw [check_all_same_series_eq c hv] at h₁
              rw [check_mostly_same_series_eq c t hth hv] at h₂
              rw [check_outside_range_series_eq c hv] at h₃
              cases h₁
              cases h₂
              cases h₃
              exact ⟨trivial, trivial, trivial⟩

/-- C7 witness: a two-column table with threshold 1/2; all three reports
carry exactly the column names `A`, `B`. -/
theorem check_result_mirrors_shape_witness :
    mirrorsShape (TabularInput.df
        [("A", Column.mk Dtype.int64 [1, 0]),
         ("B", Column.mk Dtype.bool [1, 1])])
      (result_to_df (RawResult.perColumn
          (([("A", Column.mk Dtype.int64 [1, 0]),
             ("B", Column.mk Dtype.bool [1, 1])]).map fun c =>
            (c.1, optEq (seriesMin c.2.values) (seriesMax c.2.values))))
        "all_same" []) ∧
    mirrorsShape (TabularInput.df
        [("A", Column.mk Dtype.int64 [1, 0]),
         ("B", Column.mk Dtype.bool [1, 1])])
      (result_to_df (RawResult.perColumn
          ((([("A", Column.mk Dtype.int64 [1, 0]),
              ("B", Column.mk Dtype.bool [1, 1])]).map fun c =>
              (c.1, seriesMean c.2.values)).map fun m =>
            (m.1, optGe m.2 (some (1 / 2)) || optLe m.2 (some (1 - 1 / 2)))))
        "mostly_same"
        [("thresh", Extra.num (some (1 / 2))),
         ("mean", Extra.perColumn
           (([("A", Column.mk Dtype.int64 [1, 0]),
              ("B", Column.mk Dtype.bool [1, 1])]).map fun c =>
             (c.1, seriesMean c.2.values)))]) ∧
    mirrorsShape (TabularInput.df
        [("A", Column.mk Dtype.int64 [1, 0]),
         ("B", Column.mk Dtype.bool [1, 1])])
      (result_to_df (RawResult.perColumn
          (([("A", Column.mk Dtype.int64 [1, 0]),
             ("B", Column.mk Dtype.bool [1, 1])]).map fun c =>
            (c.1, optLt (seriesMin c.2.values) (some 0) ||
              optGt (seriesMax c.2.values) (some 1))))
        "outside_range" []) :=
  check_result_mirrors_shape _ (1 / 2) _ _ _
    (check_all_same_df_eq _ (by rfl))
    (check_mostly_same_df_eq _ _
      (validate_thresh_ok (1 / 2) (by norm_num) (by norm_num)) (by rfl))
    (check_outside_range_df_eq _ (by rfl))

/-- C8: every check is a pure function of its input: running it twice on
the same unmodified input yields identical results. -/
theorem checks_idempotent (data : TabularInput) (t : ℚ) :
    check_all_same data = check_all_same data ∧
    check_mostly_same data t = check_mostly_same data t ∧
    check_outside_range data = check_outside_range data :=
  ⟨rfl, rfl, rfl⟩

/-- C9: with a threshold t satisfying 0 < t ≤ 1/2, the inclusive conditions
mean ≥ t and mean ≤ 1 - t jointly cover every possible mean, so on nonempty
validated data every column's mostly-same outcome is true regardless of
contents. -/
theorem check_mostly_same_low_thresh_all_true (data : TabularInput) (t : ℚ)
    (hv : validate_binary_dtype data = Except.ok ())
    (hne : ∀ l ∈ columnsOf data, l ≠ [])
    (ht0 : 0 < t) (hthalf : t ≤ 1 / 2) :
    ∃ r, check_mostly_same data t = Except.ok r ∧
      ∀ b ∈ r.outcomes, b = true := by
  have ht1 : t < 1 := lt_of_le_of_lt hthalf (by norm_num)
  have hth := validate_thresh_ok t ht0 ht1
  have hcover : ∀ (l : List ℚ), l ≠ [] →
      (optGe (seriesMean l) (some t) ||
        optLe (seriesMean l) (some (1 - t))) = true := by
    intro l hl
    rw [mostlySame_col l hl t]
    rcases le_total t (l.sum / l.length) with h | h
    · exact Or.inl h
    · exact Or.inr (le_trans h (by linarith))
  cases data with
  | df cols =>
      refine ⟨_, check_mostly_same_df_eq cols t hth hv, ?_⟩
      intro b hb
      simp only [result_to_df, Report.outcomes, List.map_map,
        List.mem_map, Function.comp] at hb
      obtain ⟨c, hc, rfl⟩ := hb
      refine hcover c.2.values (hne c.2.values ?_)
      simp only [columnsOf, List.mem_map]
      exact ⟨c, hc, rfl⟩
  | series c =>
      refine ⟨_, check_mostly_same_series_eq c t hth hv, ?_⟩
      intro b hb
      simp only [result_to_df, Report.outcomes, List.mem_singleton] at hb
      subst hb
      refine hcover c.values (hne c.values ?_)
      simp [columnsOf]

/-- C9 witness: the column `[0, 1, 1]` with threshold exactly 1/2. -/
theorem check_mostly_same_low_thresh_all_true_witness :
    ∃ r, check_mostly_same
        (TabularInput.series (Column.mk Dtype.int64 [0, 1, 1])) (1 / 2) =
      Except.ok r ∧ ∀ b ∈ r.outcomes, b = true :=
  check_mostly_same_low_thresh_all_true _ (1 / 2) (by rfl) (by decide)
    (by norm_num) (by norm_num)

/-- C10: all-same implies mostly-same — for a nonempty single column of
integer-valued (or boolean, embedded as 0/1) validated data and any
threshold in (0,1), if the all-same outcome is true then the mostly-same
outcome is true. -/
theorem all_same_implies_mostly_same (c : Column) (t : ℚ)
    (hv : validate_binary_dtype (TabularInput.series c) = Except.ok ())
    (hne : c.values ≠ [])
    (hint : ∀ x ∈ c.values, ∃ n : ℤ, x = (n : ℚ))
    (ht0 : 0 < t) (ht1 : t < 1) (r₁ : Report)
    (h₁ : check_all_same (TabularInput.series c) = Except.ok r₁)
    (hall : r₁.result = RawResult.scalar true) :
    ∃ r₂, check_mostly_same (TabularInput.series c) t = Except.ok r₂ ∧
      r₂.result = RawResult.scalar true := by
  have hth := validate_thresh_ok t ht0 ht1
  rw [check_all_same_series_eq c hv] at h₁
  cases h₁
  have hopt : optEq (seriesMin c.values) (seriesMax c.values) = true :=
    RawResult.scalar.inj hall
  have hconst := ((allSame_col c.values hne).2).mp hopt
  obtain ⟨v0, hv0mem⟩ := List.exists_mem_of_ne_nil c.values hne
  have hallv : ∀ x ∈ c.values, x = v0 := fun x hx => hconst x hx v0 hv0mem
  obtain ⟨n, hn⟩ := hint v0 hv0mem
  have hlenpos : 0 < c.values.length := List.length_pos.mpr hne
  have hlen : (c.values.length : ℚ) ≠ 0 := by
    exact_mod_cast hlenpos.ne'
  have hmean : c.values.sum / c.values.length = v0 := by
    rw [List.sum_eq_card_nsmul c.values v0 hallv, nsmul_eq_mul]
    field_simp
  have houtcome : (optGe (seriesMean c.values) (some t) ||
      optLe (seriesMean c.values) (some (1 - t))) = true := by
    rw [mostlySame_col c.values hne t, hmean, hn]
    rcases le_or_lt 1 n with hge | hlt
    · left
      have h1n : (1 : ℚ) ≤ (n : ℚ) := by exact_mod_cast hge
      linarith
    · right
      have hn0 : n ≤ 0 := by omega
      have hn0q : (n : ℚ) ≤ 0 := by exact_mod_cast hn0
      linarith
  refine ⟨_, check_mostly_same_series_eq c t hth hv, ?_⟩
  show RawResult.scalar _ = RawResult.scalar true
  rw [houtcome]

/-- C10 witness: the constant integer column `[1, 1]` with threshold
1/2. -/
theorem all_same_implies_mostly_same_witness :
    ∃ r₂, check_mostly_same
        (TabularInput.series (Column.mk Dtype.int64 [1, 1])) (1 / 2) =
      Except.ok r₂ ∧ r₂.result = RawResult.scalar true :=
  all_same_implies_mostly_same (Column.mk Dtype.int64 [1, 1]) (1 / 2)
    (by rfl) (by decide)
    (by
      intro x hx
      refine ⟨1, ?_⟩
      rcases List.mem_cons.mp hx with h | h
      · rw [h]; norm_num
      · rcases List.mem_singleton.mp h with rfl; norm_num)
    (by norm_num) (by norm_num) _
    (check_all_same_series_eq _ (by rfl)) (by rfl)
